import Mathlib

/-!
Verification of the request-execution and response-presentation pipeline of the
httpx command-line client (`src/httpx/_main.py`).

The pure formatting helpers (`format_request_headers`, `format_response_headers`,
`print_response`, `download_response`) and the orchestration in `main` are embedded
as executable Lean definitions.  Parts of the repository that are not under `src/`
(`_models.py`, `_client.py`, `_exceptions.py`) are modelled from the specification
and marked as such in their doc comments.
-/

namespace Httpx

/-! ### JSON values and Python-style serialization -/

/-- JSON values, as produced by Python's `json.loads` (numbers restricted to
integers, which is all the pipeline's claims exercise). -/
inductive Json where
  | null : Json
  | bool : Bool → Json
  | num : Int → Json
  | str : String → Json
  | arr : List Json → Json
  | obj : List (String × Json) → Json
deriving Repr

/-- Python truthiness of a parsed JSON value: `None`, `False`, `0`, `""`, `[]`
and an empty dict are falsy, everything else is truthy. -/
def Json.isTruthy : Json → Bool
  | .null => false
  | .bool b => b
  | .num n => n != 0
  | .str s => s != ""
  | .arr xs => !xs.isEmpty
  | .obj fs => !fs.isEmpty

/-- Escape a character inside a JSON string literal (the fragment of
`json.dumps` escaping that the model needs). -/
def escapeChar (c : Char) : String :=
  if c = '"' then "\\\"" else if c = '\\' then "\\\\" else if c = '\n' then "\\n"
  else String.singleton c

/-- Render a JSON string literal with quotes, as `json.dumps` does. -/
def quoteString (s : String) : String :=
  "\"" ++ String.join (s.data.map escapeChar) ++ "\""

/-- A run of `n` spaces. -/
def pad (n : Nat) : String := String.mk (List.replicate n ' ')

mutual

/-- Python's `json.dumps(v, indent=indent)` at nesting depth `level`:
containers open with a newline, members are indented by `indent * (level+1)`
spaces and separated by `",\n"`, and the closing bracket is indented by
`indent * level` spaces; empty containers print inline. -/
def dumpsVal (indent level : Nat) : Json → String
  | .null => "null"
  | .bool b => if b then "true" else "false"
  | .num n => toString n
  | .str s => quoteString s
  | .arr [] => "[]"
  | .arr (x :: xs) =>
      "[\n" ++ pad (indent * (level + 1))
        ++ String.intercalate (",\n" ++ pad (indent * (level + 1)))
            (dumpsItems indent (level + 1) (x :: xs))
        ++ "\n" ++ pad (indent * level) ++ "]"
  | .obj [] => "\x7b\x7d"
  | .obj (f :: fs) =>
      "\x7b\n" ++ pad (indent * (level + 1))
        ++ String.intercalate (",\n" ++ pad (indent * (level + 1)))
            (dumpsFields indent (level + 1) (f :: fs))
        ++ "\n" ++ pad (indent * level) ++ "\x7d"

/-- Rendered array members of `json.dumps`. -/
def dumpsItems (indent level : Nat) : List Json → List String
  | [] => []
  | x :: xs => dumpsVal indent level x :: dumpsItems indent level xs

/-- Rendered object members (`"key": value`) of `json.dumps`. -/
def dumpsFields (indent level : Nat) : List (String × Json) → List String
  | [] => []
  | (k, v) :: fs => (quoteString k ++ ": " ++ dumpsVal indent level v) :: dumpsFields indent level fs

end

/-- Python's `json.dumps(v, indent=n)` on a whole document. -/
def dumps (indent : Nat) (v : Json) : String := dumpsVal indent 0 v

/-! ### Character and string helpers (kernel-reducible replacements for the
Python string methods the source uses) -/

/-- ASCII lowercase of one character, as Python's `str.lower` acts on the
ASCII header and lexer names this pipeline compares. -/
def lowerChar (c : Char) : Char :=
  if 'A' ≤ c ∧ c ≤ 'Z' then Char.ofNat (c.toNat + 32) else c

/-- ASCII `str.lower`. -/
def strToLower (s : String) : String := String.mk (s.data.map lowerChar)

/-- Characters of a string up to (excluding) the first `';'`, i.e. the first
component of Python's `content_type.partition(";")`. -/
def takeUntilSemicolon : List Char → List Char
  | [] => []
  | c :: rest => if c = ';' then [] else c :: takeUntilSemicolon rest

/-- Python's `str.strip()`: drop whitespace from both ends. -/
def stripSpaces (l : List Char) : List Char :=
  ((l.dropWhile Char.isWhitespace).reverse.dropWhile Char.isWhitespace).reverse

/-- The mime type extracted from a `Content-Type` header value:
`mime_type, _, _ = content_type.partition(";")` followed by `.strip()`
(`get_lexer_for_response`, `_main.py` line 96). -/
def mimeType (contentType : String) : String :=
  String.mk (stripSpaces (takeUntilSemicolon contentType.data))

/-! ### Requests and responses -/

/-- The request data that `format_request_headers` (`_main.py` lines 104-110)
consumes.  Modelled from the spec: the `Request` class itself lives in
`_models.py`, which is not under `src/`; per the spec a request carries a
method, a URL (whose raw form ends in the request target) and an ordered
header sequence with duplicates allowed.  `target` stands for
`request.url.raw[-1].decode("ascii")` and `headers` for the decoded
`request.headers.raw` pairs. -/
structure Request where
  method : String
  target : String
  headers : List (String × String)
deriving Repr

/-- The response data consumed by the presentation helpers.  Modelled from the
spec: the `Response` class lives in `_models.py`, which is not under `src/`.
Per the spec a StreamingResponse carries `status_code`, `reason_phrase`,
`http_version`, an ordered header sequence, a redirect indicator, a lazy byte
sequence (`chunks`, the chunks yielded by `iter_bytes()`), and after a full
read a drained body: `content` models the decoded text of the drained body
(`.text`, "decoded body after a full read") and `jsonValue` the result of
`.json()` ("best-effort parse, raises on malformed input" — `none` models the
raising case). -/
structure Response where
  http_version : String
  status_code : Nat
  reason_phrase : String
  headers : List (String × String)
  content : String
  jsonValue : Option Json
  has_redirect_location : Bool
  chunks : List (List Nat)
deriving Repr

/-- Modelled from the spec: `response.text`, the decoded body after a full
read (`_models.py` is not under `src/`). -/
def Response.text (r : Response) : String := r.content

/-- Modelled from the spec: `response.is_success` (`_models.py` is not under
`src/`).  The spec defines the exit outcome as Success exactly when the
response status is `< 400` and the exit code as `0` on Success. -/
def Response.is_success (r : Response) : Bool := r.status_code < 400

/-- Case-insensitive header lookup, the behaviour of `response.headers.get`
on httpx's `Headers` mapping.  Modelled from the spec: `Headers` lives in
`_models.py`, which is not under `src/`; HTTP header names compare
case-insensitively and the first matching value is returned. -/
def headersGet (hs : List (String × String)) (name : String) : Option String :=
  (hs.find? (fun p => strToLower p.1 = strToLower name)).map (fun p => p.2)

/-- Modelled from the spec: pygments lexer selection is an external
collaborator ("select a display format from the response's declared content
type ... Unrecognized content types fall back to raw text").  We model the
mimetype table for the formats the claims exercise; pygments names the JSON
lexer `"JSON"` and unknown mime types yield no lexer. -/
def lexerForMimetype (mime : String) : String :=
  if mime = "application/json" then "JSON"
  else if mime = "text/html" then "HTML"
  else ""

/-- Embedding of `get_lexer_for_response` (`_main.py` lines 93-101): read the
`Content-Type` header, keep the part before any `";"`, strip it, and look up a
lexer name; an absent header or unknown mime type yields `""`. -/
def get_lexer_for_response (r : Response) : String :=
  match headersGet r.headers "Content-Type" with
  | some ct => lexerForMimetype (mimeType ct)
  | none => ""

/-! ### Header and body formatting (`_main.py` lines 104-167) -/

/-- One rendered header line, `f"\x7bname\x7d: \x7bvalue\x7d"`. -/
def headerLine (p : String × String) : String := p.1 ++ ": " ++ p.2

/-- The request line `f"\x7brequest.method\x7d \x7btarget\x7d HTTP/1.1"`
(`_main.py` line 106); the protocol is the fixed literal `HTTP/1.1`. -/
def request_line (r : Request) : String := r.method ++ " " ++ r.target ++ " HTTP/1.1"

/-- The list of lines built by `format_request_headers` (`_main.py` lines
104-110) before joining with newlines. -/
def format_request_headers_lines (r : Request) : List String :=
  request_line r :: r.headers.map headerLine

/-- Embedding of `format_request_headers` (`_main.py` lines 104-110). -/
def format_request_headers (r : Request) : String :=
  String.intercalate "\n" (format_request_headers_lines r)

/-- The status line
`f"\x7bhttp_version\x7d \x7bstatus_code\x7d \x7breason_phrase\x7d"`
(`_main.py` line 115). -/
def status_line (r : Response) : String :=
  r.http_version ++ " " ++ toString r.status_code ++ " " ++ r.reason_phrase

/-- The list of lines built by `format_response_headers` (`_main.py` lines
113-120) before joining with newlines. -/
def format_response_headers_lines (r : Response) : List String :=
  status_line r :: r.headers.map headerLine

/-- Embedding of `format_response_headers` (`_main.py` lines 113-120). -/
def format_response_headers (r : Response) : String :=
  String.intercalate "\n" (format_response_headers_lines r)

/-- The body text printed by `print_response` (`_main.py` lines 152-167): when
a lexer is found and its lowercased name is `"json"`, try `response.json()`
and re-serialize it with `json.dumps(data, indent=4)`; on a parse failure
(`ValueError`, modelled by `jsonValue = none`) fall back to `response.text`;
for any other or missing lexer print `response.text` unchanged.  This is a
total function: rendering never raises. -/
def print_response_body (r : Response) : String :=
  let lexerName := get_lexer_for_response r
  if lexerName ≠ "" then
    if strToLower lexerName = "json" then
      match r.jsonValue with
      | some d => dumps 4 d
      | none => r.text
    else r.text
  else r.text

/-! ### Download streaming (`_main.py` lines 170-188) -/

/-- Accumulator loop of `download_response`'s `for chunk in
response.iter_bytes()` (`_main.py` lines 186-188): each chunk is appended to
the file and afterwards the cumulative bytes-consumed counter
(`response.num_bytes_downloaded`, modelled from the spec as the "cumulative
bytes consumed so far" counter of the lazy byte sequence) is reported to the
progress sink.  Returns the final file contents and the list of reported
cumulative values, one report per chunk. -/
def download_go : Nat → List Nat → List (List Nat) → List Nat × List Nat
  | _, file, [] => (file, [])
  | consumed, file, c :: rest =>
      let r := download_go (consumed + c.length) (file ++ c) rest
      (r.1, (consumed + c.length) :: r.2)

/-- Observable trace of one download: the bytes written to the file sink and
the cumulative byte counts reported to the progress sink after each chunk. -/
structure DownloadTrace where
  fileBytes : List Nat
  reports : List Nat
deriving Repr, DecidableEq

/-- Embedding of the streaming part of `download_response` (`_main.py` lines
170-188), starting with an empty file and a zero counter. -/
def download_response (chunks : List (List Nat)) : DownloadTrace :=
  { fileBytes := (download_go 0 [] chunks).1, reports := (download_go 0 [] chunks).2 }

/-! ### CLI arguments and the orchestration in `main` (`_main.py` lines 370-438) -/

/-- The already-validated CLI options `main` receives.  `method = ""` models
the flag being absent (click passes `None`, and `not method` is true for both
`None` and `""`); `json` is the value already parsed by `validate_json`
(`none` when the flag is absent); `download` records whether a download
target file was given. -/
structure Args where
  url : String
  method : String
  content : String
  data : List (String × String)
  files : List (String × String)
  json : Option Json
  headers : List (String × String)
  cookies : List (String × String)
  auth : Option (String × String)
  follow_redirects : Bool
  verify : Bool
  http2 : Bool
  download : Bool
  verbose : Bool

/-- Python truthiness of the parsed `--json` value held in `main`'s `json`
variable (`None` when absent, otherwise the parsed document). -/
def jsonTruthy : Option Json → Bool
  | none => false
  | some v => v.isTruthy

/-- The condition `content or data or files or json` of `_main.py` line 394:
Python truthiness of the four body fields. -/
def bodyGiven (a : Args) : Bool :=
  a.content != "" || !a.data.isEmpty || !a.files.isEmpty || jsonTruthy a.json

/-- Embedding of the method defaulting of `_main.py` lines 393-394:
`if not method: method = "POST" if content or data or files or json else "GET"`. -/
def resolveMethod (a : Args) : String :=
  if a.method = "" then (if bodyGiven a then "POST" else "GET") else a.method

/-- How many of the four body variants are populated (for the defensive
exclusivity check; a JSON variant counts as populated whenever a parsed value
is present). -/
def bodyVariantCount (a : Args) : Nat :=
  (if a.content != "" then 1 else 0) + (if !a.data.isEmpty then 1 else 0)
    + (if !a.files.isEmpty then 1 else 0) + (if a.json.isSome then 1 else 0)

/-- The message of the body-variant exclusivity failure. -/
def bodyExclusivityMessage : String :=
  "request body variants are mutually exclusive"

/-- Modelled from the spec: the Request Builder lives in the client code
(`_client.py`), which is not under `src/`.  Per the spec it "fails with
ConfigurationError if more than one [body variant] is simultaneously
non-empty (defensive check)", reported immediately with no network call
attempted; otherwise it assembles the request description, with the method
already resolved by `main` and the other fields passed through unchanged. -/
def buildRequest (a : Args) : Except String Request :=
  if 2 ≤ bodyVariantCount a then Except.error bodyExclusivityMessage
  else Except.ok { method := resolveMethod a, target := a.url, headers := a.headers }

/-- Outcome of the transport collaborator for one invocation.  Modelled from
the spec: `_client.py` is not under `src/`.  A failure before headers raises a
`RequestError` subclass (carrying its class name and message); otherwise the
client yields the chain of responses it walked — when redirect-following is
enabled the response event hook fires once per response in the chain, and the
`response` variable bound by `with client.stream(...)` is the last response
object in scope after redirect-following ("the source computes the final exit
status from the last response object in scope after any redirect-following
recursion mutates that variable"). -/
inductive TransportResult where
  | transportError (kind message : String)
  | ok (pre : List Response) (final : Response)

/-- One observable item written to the console by `main` and its helpers. -/
inductive OutItem where
  | requestBlock (text : String)
  | responseHeaders (text : String)
  | delimiter
  | body (text : String)
  | progressReport (completed : Nat)
  | errorLine (text : String)
deriving Repr, DecidableEq

/-- The observable result of one invocation of `main`: the console output, the
argument of `sys.exit`, and whether the network call was attempted. -/
structure RunResult where
  output : List OutItem
  exitCode : Nat
  networkCalled : Bool

/-- Output of the verbose `request` event hook (`print_request_headers`,
registered at `_main.py` lines 397-398 and fired before the request is
dispatched). -/
def verbose_output (a : Args) (req : Request) : List OutItem :=
  if a.verbose then [OutItem.requestBlock (format_request_headers req)] else []

/-- Embedding of `print_redirects` (`_main.py` lines 145-149): for a response
with a redirect location, read it and print its headers followed by its body
(no delimiter and no emptiness check); otherwise print nothing. -/
def redirect_block (r : Response) : List OutItem :=
  if r.has_redirect_location then
    [OutItem.responseHeaders (format_response_headers r),
     OutItem.body (print_response_body r)]
  else []

/-- Output of the `response` event hook (`print_redirects`, registered at
`_main.py` lines 399-400 only when `--follow-redirects` is given), fired once
per response in the chain. -/
def response_hook_output (a : Args) (pre : List Response) (final : Response) : List OutItem :=
  if a.follow_redirects then ((pre ++ [final]).map redirect_block).flatten else []

/-- Embedding of the presentation of the top-level response in `main`
(`_main.py` lines 423-431): print the response headers; in download mode
`download_response` prints a blank delimiter block and then the progress
reports; otherwise read the body and, only if the drained content is
non-empty, print a delimiter followed by the pretty-printed body. -/
def final_presentation (a : Args) (r : Response) : List OutItem :=
  OutItem.responseHeaders (format_response_headers r) ::
    (if a.download then
      OutItem.delimiter :: ((download_response r.chunks).reports.map OutItem.progressReport)
    else if r.content != "" then
      [OutItem.delimiter, OutItem.body (print_response_body r)]
    else [])

/-- Embedding of `main` (`_main.py` lines 370-438) as a function of the
validated CLI options and the transport outcome.  The builder failure path
(ConfigurationError) reports one error line and makes no network call; a
transport failure before headers is caught by the `except RequestError`
clause (`_main.py` lines 433-436), which prints the single line
`f"\x7btype(exc).__name__\x7d: \x7bexc\x7d"` and exits 1; otherwise the
hooks and presentation run and `sys.exit(0 if response.is_success else 1)`
(`_main.py` line 438) is applied to the last response in scope. -/
def mainRun (a : Args) (t : TransportResult) : RunResult :=
  match buildRequest a with
  | Except.error e =>
      { output := [OutItem.errorLine ("ConfigurationError: " ++ e)]
        exitCode := 1
        networkCalled := false }
  | Except.ok req =>
      match t with
      | TransportResult.transportError kind msg =>
          { output := verbose_output a req ++ [OutItem.errorLine (kind ++ ": " ++ msg)]
            exitCode := 1
            networkCalled := true }
      | TransportResult.ok pre final =>
          { output := verbose_output a req ++ response_hook_output a pre final
              ++ final_presentation a final
            exitCode := if final.is_success then 0 else 1
            networkCalled := true }

/-! ### Output classification predicates -/

/-- Whether an output item is the one-line error summary. -/
def OutItem.isErrorLine : OutItem → Bool
  | .errorLine _ => true
  | _ => false

/-- Whether an output item is a response header block. -/
def OutItem.isResponseHeaders : OutItem → Bool
  | .responseHeaders _ => true
  | _ => false

/-- Whether an output item is a pretty-printed body block. -/
def OutItem.isBodyText : OutItem → Bool
  | .body _ => true
  | _ => false

/-! ### Concrete sample inputs (used by the witnesses) -/

/-- CLI options with every field at its click default. -/
def emptyArgs : Args :=
  { url := "http://example.org", method := "", content := "", data := [], files := []
    json := none, headers := [], cookies := [], auth := none, follow_redirects := false
    verify := true, http2 := false, download := false, verbose := false }

/-- Default options with redirect-following enabled. -/
def redirectArgs : Args := { emptyArgs with follow_redirects := true }

/-- Default options with two body variants populated at once. -/
def twoBodyArgs : Args := { emptyArgs with content := "abc", json := some (Json.num 1) }

/-- Default options with a JSON body whose parsed value is the number 0. -/
def jsonZeroArgs : Args := { emptyArgs with json := some (Json.num 0) }

/-- A plain 200 response with a small text body. -/
def sampleOk : Response :=
  { http_version := "HTTP/1.1", status_code := 200, reason_phrase := "OK"
    headers := [("Content-Type", "text/plain")], content := "hello"
    jsonValue := none, has_redirect_location := false, chunks := [] }

/-- A 301 redirect response with a Location header and empty body. -/
def redirectResp : Response :=
  { http_version := "HTTP/1.1", status_code := 301, reason_phrase := "Moved Permanently"
    headers := [("Location", "https://example.org/y")], content := ""
    jsonValue := none, has_redirect_location := true, chunks := [] }

/-- A 500 final response. -/
def serverErrorResp : Response :=
  { http_version := "HTTP/1.1", status_code := 500, reason_phrase := "Internal Server Error"
    headers := [("Content-Type", "text/plain")], content := "boom"
    jsonValue := none, has_redirect_location := false, chunks := [] }

/-- A 404 final response. -/
def notFoundResp : Response :=
  { http_version := "HTTP/1.1", status_code := 404, reason_phrase := "Not Found"
    headers := [("Content-Type", "text/plain")], content := "nope"
    jsonValue := none, has_redirect_location := false, chunks := [] }

/-- The spec scenario response: 200 with Content-Type application/json and
body document `\x7b"x":1\x7d`. -/
def jsonResp : Response :=
  { http_version := "HTTP/1.1", status_code := 200, reason_phrase := "OK"
    headers := [("Content-Type", "application/json")], content := "\x7b\"x\":1\x7d"
    jsonValue := some (Json.obj [("x", Json.num 1)]), has_redirect_location := false
    chunks := [] }

/-! ### Helper lemmas -/

/-- When at most one body variant is populated the builder succeeds and
passes the resolved method and the other fields through. -/
theorem buildRequest_ok (a : Args) (h : bodyVariantCount a ≤ 1) :
    buildRequest a
      = Except.ok { method := resolveMethod a, target := a.url, headers := a.headers } := by
  unfold buildRequest
  rw [if_neg (by omega)]

/-- When more than one body variant is populated the builder fails. -/
theorem buildRequest_error (a : Args) (h : 2 ≤ bodyVariantCount a) :
    buildRequest a = Except.error bodyExclusivityMessage := by
  unfold buildRequest
  rw [if_pos h]

/-- Sums of longer and longer takes of a list of naturals are monotone. -/
theorem sum_take_le (l : List Nat) (i j : Nat) (h : i ≤ j) :
    (l.take i).sum ≤ (l.take j).sum := by
  have h2 : l.take j = l.take i ++ (l.drop i).take (j - i) := by
    rw [← List.take_add l i (j - i), Nat.add_sub_cancel' h]
  rw [h2, List.sum_append]
  exact Nat.le_add_right _ _

/-- The download loop writes exactly the chunks it consumes, in order. -/
theorem download_go_fst (chunks : List (List Nat)) :
    ∀ consumed file, (download_go consumed file chunks).1 = file ++ chunks.flatten := by
  induction chunks with
  | nil => intro consumed file; simp [download_go]
  | cons c rest ih => intro consumed file; simp [download_go, ih]

/-- The download loop reports once per chunk. -/
theorem download_go_snd_length (chunks : List (List Nat)) :
    ∀ consumed file, (download_go consumed file chunks).2.length = chunks.length := by
  induction chunks with
  | nil => intro consumed file; simp [download_go]
  | cons c rest ih => intro consumed file; simp [download_go, ih]

/-- The i-th report of the download loop is the starting count plus the sizes
of the first i+1 chunks. -/
theorem download_go_snd_get (chunks : List (List Nat)) :
    ∀ consumed file i, i < chunks.length →
      (download_go consumed file chunks).2[i]?
        = some (consumed + ((chunks.take (i + 1)).map List.length).sum) := by
  induction chunks with
  | nil => intro consumed file i hi; exact absurd hi (by simp)
  | cons c rest ih =>
      intro consumed file i hi
      cases i with
      | zero => simp [download_go]
      | succ i =>
          have hi' : i < rest.length := by simpa using hi
          have := ih (consumed + c.length) (file ++ c) i hi'
          simp only [download_go, List.getElem?_cons_succ]
          rw [this]
          simp only [List.take_succ_cons, List.map_cons, List.sum_cons, Option.some.injEq]
          omega

/-- The last report of the download loop (defaulting to the starting count)
is the starting count plus the total size of all chunks. -/
theorem download_go_getLastD (chunks : List (List Nat)) :
    ∀ consumed file,
      (download_go consumed file chunks).2.getLastD consumed
        = consumed + (chunks.map List.length).sum := by
  induction chunks with
  | nil => intro consumed file; simp [download_go]
  | cons c rest ih =>
      intro consumed file
      simp only [download_go, List.getLastD_cons, List.map_cons, List.sum_cons]
      rw [ih (consumed + c.length) (file ++ c)]
      omega

/-! ### Claim theorems -/

/-- C1 counterexample: a redirect-following run whose top-level (original)
response is a 301 — status inside [200,399], for which the claim requires
exit code 0 — exits with code 1 when the final hop of the chain is a 500. -/
theorem exit_code_top_level_counterexample :
    200 ≤ redirectResp.status_code ∧ redirectResp.status_code ≤ 399
    ∧ redirectResp.has_redirect_location = true
    ∧ (mainRun redirectArgs (TransportResult.ok [redirectResp] serverErrorResp)).exitCode ≠ 0
    ∧ (mainRun redirectArgs (TransportResult.ok [redirectResp] serverErrorResp)).exitCode = 1 := by
  exact ⟨by decide, by decide, rfl, by decide, by decide⟩

/-- C1 (amended): for every completed exchange the exit code is derived from
the response in scope at the end of the run — the final hop of the redirect
chain, which is the top-level response itself when no redirect is followed:
it is 0 when that response's status code is in [200,399] and 1 when it is at
least 400, for any chain of responses walked before it; and no run ever
exits with a value other than 0 or 1. -/
theorem exit_code_invariant (a : Args) (pre : List Response) (final : Response)
    (hbuild : bodyVariantCount a ≤ 1) :
    (200 ≤ final.status_code → final.status_code ≤ 399 →
      (mainRun a (TransportResult.ok pre final)).exitCode = 0)
    ∧ (400 ≤ final.status_code → (mainRun a (TransportResult.ok pre final)).exitCode = 1)
    ∧ (∀ t : TransportResult, (mainRun a t).exitCode = 0 ∨ (mainRun a t).exitCode = 1) := by
  have hb := buildRequest_ok a hbuild
  refine ⟨?_, ?_, ?_⟩
  · intro h1 h2
    have hs : final.is_success = true := by
      simp only [Response.is_success, decide_eq_true_eq]
      omega
    simp [mainRun, hb, hs]
  · intro h1
    have hs : final.is_success = false := by
      simp only [Response.is_success, decide_eq_false_iff_not]
      omega
    simp [mainRun, hb, hs]
  · intro t
    cases t with
    | transportError kind msg => right; simp [mainRun, hb]
    | ok chain fin =>
        cases hs : fin.is_success with
        | true => left; simp [mainRun, hb, hs]
        | false => right; simp [mainRun, hb, hs]

/-- C1 (amended) witness: a redirect run ending on a 200 final hop exits 0,
and a plain run on a 404 exits 1. -/
theorem exit_code_invariant_witness :
    (mainRun redirectArgs (TransportResult.ok [redirectResp] sampleOk)).exitCode = 0
    ∧ (mainRun emptyArgs (TransportResult.ok [] notFoundResp)).exitCode = 1 :=
  ⟨(exit_code_invariant redirectArgs [redirectResp] sampleOk (by decide)).1
      (by decide) (by decide),
   (exit_code_invariant emptyArgs [] notFoundResp (by decide)).2.1 (by decide)⟩

/-- C2 counterexample: with redirect-following enabled, an original redirect
response of status 301 (inside [200,399], with a redirect location) followed
by a final hop of status 404 exits with code 1, while the claim as stated
requires exit code 0 from the original response. -/
theorem exit_code_last_hop_counterexample :
    200 ≤ redirectResp.status_code ∧ redirectResp.status_code ≤ 399
    ∧ redirectResp.has_redirect_location = true
    ∧ redirectArgs.follow_redirects = true
    ∧ (mainRun redirectArgs (TransportResult.ok [redirectResp] notFoundResp)).exitCode = 1 := by
  refine ⟨by decide, by decide, rfl, rfl, by decide⟩

/-- C2 (amended): with redirect-following enabled the final exit code is
derived from the status of the last hop in the redirect chain alone — the
redirect responses walked before it do not influence it — 0 when the final
hop's status is below 400 and 1 otherwise. -/
theorem exit_code_from_final_hop (a : Args) (pre pre2 : List Response) (final : Response)
    (hbuild : bodyVariantCount a ≤ 1) (_hfr : a.follow_redirects = true) :
    (mainRun a (TransportResult.ok pre final)).exitCode
      = (mainRun a (TransportResult.ok pre2 final)).exitCode
    ∧ (mainRun a (TransportResult.ok pre final)).exitCode
      = (if 400 ≤ final.status_code then 1 else 0) := by
  have hb := buildRequest_ok a hbuild
  constructor
  · simp [mainRun, hb]
  · by_cases h : 400 ≤ final.status_code
    · have hs : final.is_success = false := by
        simp only [Response.is_success, decide_eq_false_iff_not]
        omega
      simp [mainRun, hb, hs, h]
    · have hs : final.is_success = true := by
        simp only [Response.is_success, decide_eq_true_eq]
        omega
      simp [mainRun, hb, hs, h]

/-- C2 (amended) witness: the 301-then-404 chain exits exactly as the chain
with the redirect hop removed. -/
theorem exit_code_from_final_hop_witness :
    (mainRun redirectArgs (TransportResult.ok [redirectResp] notFoundResp)).exitCode
      = (mainRun redirectArgs (TransportResult.ok [] notFoundResp)).exitCode :=
  (exit_code_from_final_hop redirectArgs [redirectResp] [] notFoundResp (by decide) rfl).1

/-- C3: when more than one body variant is simultaneously non-empty the run
reports a single ConfigurationError line, attempts no network call, and
exits 1. -/
theorem config_error_on_multiple_variants (a : Args) (t : TransportResult)
    (h : 2 ≤ bodyVariantCount a) :
    (mainRun a t).networkCalled = false
    ∧ (mainRun a t).output
        = [OutItem.errorLine ("ConfigurationError: " ++ bodyExclusivityMessage)]
    ∧ (mainRun a t).exitCode = 1 := by
  have hb := buildRequest_error a h
  exact ⟨by simp [mainRun, hb], by simp [mainRun, hb], by simp [mainRun, hb]⟩

/-- C3 witness: raw content and a JSON body together are rejected without a
network call. -/
theorem config_error_on_multiple_variants_witness :
    (mainRun twoBodyArgs (TransportResult.ok [] sampleOk)).networkCalled = false :=
  (config_error_on_multiple_variants twoBodyArgs (TransportResult.ok [] sampleOk)
    (by decide)).1

/-- C4: a transport failure before headers produces exactly one error line of
the form kind-colon-message, no response header block, no body block, and
exit code 1. -/
theorem transport_error_single_line (a : Args) (kind msg : String)
    (hbuild : bodyVariantCount a ≤ 1) :
    ((mainRun a (TransportResult.transportError kind msg)).output.filter OutItem.isErrorLine)
      = [OutItem.errorLine (kind ++ ": " ++ msg)]
    ∧ ((mainRun a (TransportResult.transportError kind msg)).output.filter
        OutItem.isResponseHeaders) = []
    ∧ ((mainRun a (TransportResult.transportError kind msg)).output.filter
        OutItem.isBodyText) = []
    ∧ (mainRun a (TransportResult.transportError kind msg)).exitCode = 1 := by
  have hb := buildRequest_ok a hbuild
  cases hv : a.verbose <;>
    simp [mainRun, hb, verbose_output, hv, List.filter,
      OutItem.isErrorLine, OutItem.isResponseHeaders, OutItem.isBodyText]

/-- C4 witness: a connect timeout under the default options yields the single
summary line and nothing else. -/
theorem transport_error_single_line_witness :
    ((mainRun emptyArgs
        (TransportResult.transportError "ConnectTimeout" "timed out")).output.filter
      OutItem.isErrorLine)
      = [OutItem.errorLine ("ConnectTimeout" ++ ": " ++ "timed out")] :=
  (transport_error_single_line emptyArgs "ConnectTimeout" "timed out" (by decide)).1

/-- C5 counterexample: with no explicit method and a JSON body present whose
parsed value is the number 0 — a non-empty JSON variant, for which the claim
requires POST — the resolved method is GET. -/
theorem method_default_counterexample :
    jsonZeroArgs.method = "" ∧ jsonZeroArgs.json.isSome = true
    ∧ resolveMethod jsonZeroArgs = "GET" ∧ ¬ resolveMethod jsonZeroArgs = "POST" := by
  exact ⟨rfl, rfl, by decide, by decide⟩

/-- C5 (amended): with no explicit method the resolved method is POST exactly
when some body field is truthy — non-empty content, non-empty form data,
non-empty files, or a JSON body whose parsed value is truthy (null, false, 0,
the empty string, the empty array and the empty object do not count) — and
GET otherwise; an explicitly given method is never overridden. -/
theorem resolve_method_spec (a : Args) :
    (a.method ≠ "" → resolveMethod a = a.method)
    ∧ (a.method = "" → bodyGiven a = true → resolveMethod a = "POST")
    ∧ (a.method = "" → bodyGiven a = false → resolveMethod a = "GET") := by
  refine ⟨?_, ?_, ?_⟩
  · intro h1; simp [resolveMethod, h1]
  · intro h1 h2; simp [resolveMethod, h1, h2]
  · intro h1 h2; simp [resolveMethod, h1, h2]

/-- C5 (amended) witness: a truthy JSON body with no explicit method resolves
to POST, and an explicit DELETE stays DELETE. -/
theorem resolve_method_spec_witness :
    resolveMethod { emptyArgs with json := some (Json.str "a") } = "POST"
    ∧ resolveMethod { emptyArgs with method := "DELETE" } = "DELETE" :=
  ⟨(resolve_method_spec { emptyArgs with json := some (Json.str "a") }).2.1 rfl (by decide),
   (resolve_method_spec { emptyArgs with method := "DELETE" }).1 (by decide)⟩

/-- C6: when the resolved display format is JSON, the printed body is the
parsed JSON value re-serialized by the 4-space-indent serializer; when the
parse fails the raw decoded text is printed instead; `print_response_body`
is total, so body rendering never raises an error to the caller. -/
theorem json_body_rendering (r : Response)
    (h : strToLower (get_lexer_for_response r) = "json") :
    (∀ d, r.jsonValue = some d → print_response_body r = dumps 4 d)
    ∧ (r.jsonValue = none → print_response_body r = r.text) := by
  have hne : get_lexer_for_response r ≠ "" := by
    intro h0
    rw [h0] at h
    exact absurd h (by decide)
  constructor
  · intro d hd
    simp [print_response_body, hne, h, hd]
  · intro hd
    simp [print_response_body, hne, h, hd]

/-- C6 witness: the spec scenario — a 200 response with Content-Type
application/json and body document with one field x mapped to 1 — renders as
the reformatted document with 4-space indentation. -/
theorem json_body_rendering_witness :
    print_response_body jsonResp = "\x7b\n    \"x\": 1\n\x7d" := by
  have h := (json_body_rendering jsonResp (by decide)).1 (Json.obj [("x", Json.num 1)]) rfl
  rw [h]
  decide

/-- C7: during a download the cumulative byte counts reported to the progress
sink after each chunk are exactly the partial sums of the chunk sizes (hence
never decrease), the file receives exactly the concatenation of the chunks,
and the final reported value equals the size of the file on disk. -/
theorem download_progress_invariant (chunks : List (List Nat)) :
    (download_response chunks).fileBytes = chunks.flatten
    ∧ (∀ i, i < chunks.length →
        (download_response chunks).reports[i]?
          = some (((chunks.take (i + 1)).map List.length).sum))
    ∧ (∀ (i j vi vj : Nat), i ≤ j →
        (download_response chunks).reports[i]? = some vi →
        (download_response chunks).reports[j]? = some vj → vi ≤ vj)
    ∧ (download_response chunks).reports.getLastD 0
        = (download_response chunks).fileBytes.length := by
  have hfst : (download_response chunks).fileBytes = chunks.flatten := by
    simp [download_response, download_go_fst]
  have hget : ∀ i, i < chunks.length →
      (download_response chunks).reports[i]?
        = some (((chunks.take (i + 1)).map List.length).sum) := by
    intro i hi
    have := download_go_snd_get chunks 0 [] i hi
    simpa [download_response] using this
  refine ⟨hfst, hget, ?_, ?_⟩
  · intro i j vi vj hij hvi hvj
    have hlen : (download_response chunks).reports.length = chunks.length := by
      simp [download_response, download_go_snd_length]
    have hj : j < chunks.length := by
      have := (List.getElem?_eq_some_iff.mp hvj).1
      omega
    have hi : i < chunks.length := by omega
    have hvi' := hget i hi
    have hvj' := hget j hj
    rw [hvi] at hvi'
    rw [hvj] at hvj'
    have evi : vi = ((chunks.map List.length).take (i + 1)).sum := by
      rw [← List.map_take]
      exact Option.some.inj hvi'
    have evj : vj = ((chunks.map List.length).take (j + 1)).sum := by
      rw [← List.map_take]
      exact Option.some.inj hvj'
    rw [evi, evj]
    exact sum_take_le (chunks.map List.length) (i + 1) (j + 1) (by omega)
  · cases chunks with
    | nil => simp [download_response, download_go]
    | cons c rest =>
        have haux := download_go_getLastD rest (0 + c.length) ([] ++ c)
        simp only [download_response, download_go, List.getLastD_cons]
        rw [haux, download_go_fst]
        simp [List.length_flatten]

/-- C7 witness: for chunks of sizes 2 and 1 the second report is 3 and the
reports are monotone between the two positions. -/
theorem download_progress_invariant_witness :
    (download_response [[10, 20], [30]]).reports[1]? = some 3
    ∧ (download_response [[10, 20], [30]]).fileBytes = [10, 20, 30] := by
  refine ⟨?_, (download_progress_invariant [[10, 20], [30]]).1.trans (by decide)⟩
  have h := (download_progress_invariant [[10, 20], [30]]).2.1 1 (by decide)
  rw [h]
  decide

/-- C8: rendered request and response header text is the newline join of a
line list that starts with the request or status line and then lists one
name-colon-value line per header in exactly the original order, preserving
duplicates (the line at position i+1 is the rendering of the header at
position i, and there is one line per header plus the first line). -/
theorem header_rendering_order (req : Request) (resp : Response) :
    format_request_headers req = String.intercalate "\n" (format_request_headers_lines req)
    ∧ (format_request_headers_lines req).length = req.headers.length + 1
    ∧ (format_request_headers_lines req)[0]? = some (request_line req)
    ∧ (∀ i, (format_request_headers_lines req)[i + 1]? = (req.headers[i]?).map headerLine)
    ∧ format_response_headers resp = String.intercalate "\n" (format_response_headers_lines resp)
    ∧ (format_response_headers_lines resp).length = resp.headers.length + 1
    ∧ (format_response_headers_lines resp)[0]? = some (status_line resp)
    ∧ (∀ i, (format_response_headers_lines resp)[i + 1]? = (resp.headers[i]?).map headerLine) := by
  refine ⟨rfl, by simp [format_request_headers_lines],
    by simp [format_request_headers_lines], ?_, rfl,
    by simp [format_response_headers_lines],
    by simp [format_response_headers_lines], ?_⟩
  · intro i
    simp [format_request_headers_lines]
  · intro i
    simp [format_response_headers_lines]

/-- C9: in non-download mode the separator and the pretty-printed body are
printed after the response headers exactly when the drained content is
non-empty; for an empty body nothing follows the response header block. -/
theorem body_block_iff_content_nonempty (a : Args) (r : Response)
    (hd : a.download = false) :
    (r.content ≠ "" →
      final_presentation a r
        = [OutItem.responseHeaders (format_response_headers r), OutItem.delimiter,
           OutItem.body (print_response_body r)])
    ∧ (r.content = "" →
      final_presentation a r = [OutItem.responseHeaders (format_response_headers r)]) := by
  constructor
  · intro h
    simp [final_presentation, hd, h]
  · intro h
    simp [final_presentation, hd, h]

/-- C9 witness: the sample 200 response with body text prints headers,
separator and body; the same response with the body emptied prints only the
headers. -/
theorem body_block_iff_content_nonempty_witness :
    final_presentation emptyArgs sampleOk
      = [OutItem.responseHeaders (format_response_headers sampleOk), OutItem.delimiter,
         OutItem.body (print_response_body sampleOk)]
    ∧ final_presentation emptyArgs { sampleOk with content := "" }
      = [OutItem.responseHeaders (format_response_headers { sampleOk with content := "" })] :=
  ⟨(body_block_iff_content_nonempty emptyArgs sampleOk rfl).1 (by decide),
   (body_block_iff_content_nonempty emptyArgs { sampleOk with content := "" } rfl).2 rfl⟩

/-- C10: the protocol field of every rendered request line is the fixed
literal HTTP/1.1, and the whole observable run — output and exit code — is
unchanged by the http2 flag. -/
theorem request_line_protocol_fixed (a : Args) (t : TransportResult) :
    (∀ req : Request, request_line req = (req.method ++ " " ++ req.target) ++ " HTTP/1.1")
    ∧ (mainRun { a with http2 := true } t).output = (mainRun { a with http2 := false } t).output
    ∧ (mainRun { a with http2 := true } t).exitCode
        = (mainRun { a with http2 := false } t).exitCode := by
  exact ⟨fun req => rfl, rfl, rfl⟩

end Httpx
